import Mathlib

/-!
A shallow embedding of the soundspan sidecar services, covering the parts of
the code that the verified properties below talk about:

* the feature-extraction worker (`services/audio-analyzer/analyzer.py`):
  stale-`processing` maintenance, pool-crash requeue, batch-timeout
  finalization, the `set_workers` control/debounced-resize state machine and
  the heuristic mood estimates;
* the embedding worker (`services/audio-analyzer-clap/analyzer.py`):
  the text-embed stream handler with its pipelined publish+ack and the
  middle-window audio loader;
* the streaming sidecars (`services/tidal-downloader/app.py`,
  `services/ytmusic-streamer/app.py`): the refresh-once byte-range proxy and
  the response headers of both stream proxies.

Database writes are modelled as pure updates of a list of rows, Redis as an
explicit effect state, and wall-clock time as an explicit parameter.
Real-valued quantities of the source are modelled as rationals.
-/

namespace Soundspan

/-- A row of the `"Track"` table restricted to the columns touched by the
analysis worker's status machinery. `analysisStartedAt` and
`analysisRetryCount` are nullable in the schema (the SQL applies `COALESCE`
on read). Timestamps are unix seconds. The wide feature columns and the
`EnrichmentFailure` bookkeeping are outside this model. -/
structure TrackRow where
  id : String
  analysisStatus : String
  analysisStartedAt : Option Int
  analysisRetryCount : Option Nat
  analysisError : Option String
  updatedAt : Int
  deriving Repr, DecidableEq

/-- `COALESCE(t."analysisRetryCount", 0)`. -/
def retryCountOf (r : TrackRow) : Nat :=
  r.analysisRetryCount.getD 0

/-- The staleness window test shared by both `UPDATE`s of
`AnalysisWorker._cleanup_stale_processing`: `analysisStartedAt` older than
`STALE_PROCESSING_MINUTES`, or, when `analysisStartedAt IS NULL`,
`updatedAt` older than the same window. -/
def staleCondition (now staleMinutes : Int) (r : TrackRow) : Bool :=
  match r.analysisStartedAt with
  | some s => s < now - staleMinutes * 60
  | none => r.updatedAt < now - staleMinutes * 60

/-- First `UPDATE` of `_cleanup_stale_processing`: a stale `processing` row
that already has an embedding (`track_embeddings` join) becomes `completed`
with its error and `analysisStartedAt` cleared. `emb` is the set of track
ids present in `track_embeddings`. -/
def recoverStaleEmbedded (emb : List String) (now staleMinutes : Int)
    (r : TrackRow) : TrackRow :=
  if r.id ∈ emb ∧ r.analysisStatus = "processing" ∧
      staleCondition now staleMinutes r = true then
    { r with analysisStatus := "completed", analysisError := none,
             analysisStartedAt := none, updatedAt := now }
  else r

/-- Second `UPDATE` of `_cleanup_stale_processing`: a stale `processing` row
with no embedding and `COALESCE(retryCount,0) < MAX_RETRIES` goes back to
`pending` with the retry counter incremented. -/
def resetStaleUnembedded (emb : List String) (now staleMinutes : Int)
    (maxRetries : Nat) (r : TrackRow) : TrackRow :=
  if r.analysisStatus = "processing" ∧ staleCondition now staleMinutes r = true ∧
      retryCountOf r < maxRetries ∧ r.id ∉ emb then
    { r with analysisStatus := "pending", analysisStartedAt := none,
             analysisRetryCount := some (retryCountOf r + 1), updatedAt := now }
  else r

/-- `AnalysisWorker._cleanup_stale_processing` restricted to its effect on
the `"Track"` table: the embedded-recovery `UPDATE` followed by the
reset-to-pending `UPDATE`, each acting row-wise. -/
def cleanupStaleProcessing (emb : List String) (now staleMinutes : Int)
    (maxRetries : Nat) (db : List TrackRow) : List TrackRow :=
  (db.map (recoverStaleEmbedded emb now staleMinutes)).map
    (resetStaleUnembedded emb now staleMinutes maxRetries)

/-- A queue payload `{"trackId": ..., "filePath": ...}` of the analysis
queue. -/
structure QueueJob where
  trackId : String
  filePath : String
  deriving Repr, DecidableEq

/-- The `UPDATE` of `AnalysisWorker._requeue_tracks_for_retry`, applied to a
single row: rows named in the batch that are still `processing` are reset to
`pending` with `analysisStartedAt` cleared and the (truncated) requeue
reason recorded; `analysisRetryCount` is not touched. -/
def requeueUpdateRow (trackIds : List String) (reason : String) (now : Int)
    (r : TrackRow) : TrackRow :=
  if r.id ∈ trackIds ∧ r.analysisStatus = "processing" then
    { r with analysisStatus := "pending", analysisStartedAt := none,
             analysisError := some (reason.take 500), updatedAt := now }
  else r

/-- `AnalysisWorker._requeue_tracks_for_retry`: reset the listed rows (the
`RETURNING id` set is exactly the rows that were `processing`), then push
the job descriptors of the eligible ids back onto the analysis queue.
Returns the updated table and the re-pushed payloads, in order. -/
def requeueTracksForRetry (db : List TrackRow) (tracks : List QueueJob)
    (reason : String) (now : Int) : List TrackRow × List QueueJob :=
  let trackIds := tracks.map (·.trackId)
  let eligibleIds :=
    (db.filter
        (fun r => decide (r.id ∈ trackIds ∧ r.analysisStatus = "processing"))).map
      (·.id)
  let db' := db.map (requeueUpdateRow trackIds reason now)
  (db', tracks.filter (fun t => decide (t.trackId ∈ eligibleIds)))

/-- The requeue reason used by the pool-crash handler of
`_process_tracks_parallel`. -/
def poolCrashReason : String :=
  "Analyzer worker process crashed; re-queued for retry"

/-- A pool future of the current batch as seen by the crash/timeout
handlers: the submitted job, whether `future.done()` held, and whether
`future.cancel()` was called on it. -/
structure BatchFuture where
  job : QueueJob
  done : Bool
  cancelled : Bool
  deriving Repr, DecidableEq

/-- The pool-crash branch of `AnalysisWorker._process_tracks_parallel`:
cancel every not-yet-done future, compute the still-unfinalized jobs of the
batch (`finalized` is `finalized_track_ids`), and hand them to
`_requeue_tracks_for_retry`. -/
def poolCrashRequeue (db : List TrackRow) (batch : List QueueJob)
    (futures : List BatchFuture) (finalized : List String) (now : Int) :
    List TrackRow × List QueueJob × List BatchFuture :=
  let futures' :=
    futures.map (fun f => if f.done then f else { f with cancelled := true })
  let remaining := batch.filter (fun t => decide (t.trackId ∉ finalized))
  let (db', queued) := requeueTracksForRetry db remaining poolCrashReason now
  (db', queued, futures')

/-- The `"Track"` update of `AnalysisWorker._save_failed`, applied to the
targeted row. In the `permanent` branch the retry counter is forced to
`MAX_RETRIES`; otherwise it is incremented. The error string is truncated
to 500 characters. -/
def saveFailedRow (maxRetries : Nat) (error : String) (permanent : Bool)
    (now : Int) (r : TrackRow) : TrackRow :=
  if permanent then
    { r with analysisStatus := "failed", analysisError := some (error.take 500),
             analysisRetryCount := some maxRetries, analysisStartedAt := none,
             updatedAt := now }
  else
    { r with analysisStatus := "failed", analysisError := some (error.take 500),
             analysisRetryCount := some (retryCountOf r + 1),
             analysisStartedAt := none, updatedAt := now }

/-- `AnalysisWorker._save_failed` restricted to its effect on the `"Track"`
table (the `EnrichmentFailure` upsert is out of scope of the claims). -/
def saveFailed (maxRetries : Nat) (db : List TrackRow) (trackId : String)
    (error : String) (permanent : Bool) (now : Int) : List TrackRow :=
  db.map (fun r => if r.id = trackId then saveFailedRow maxRetries error permanent now r else r)

/-- The error message recorded by the batch-timeout handler:
`f"Batch timeout after {BATCH_ANALYSIS_TIMEOUT_SECONDS}s"`. -/
def batchTimeoutMessage (timeoutSeconds : Nat) : String :=
  "Batch timeout after " ++ toString timeoutSeconds ++ "s"

/-- The `FuturesTimeoutError` handler of `_process_tracks_parallel`: every
future that is not `done` is cancelled and its track is saved as a permanent
failure with the batch-timeout message. The row updates are folded in
iteration order; finished futures are left alone. -/
def batchTimeoutFinalize (maxRetries timeoutSeconds : Nat)
    (db : List TrackRow) (futures : List BatchFuture) (now : Int) :
    List TrackRow × List BatchFuture :=
  let db' := futures.foldl
    (fun d f =>
      if f.done then d
      else saveFailed maxRetries d f.job.trackId
        (batchTimeoutMessage timeoutSeconds) true now)
    db
  let futures' :=
    futures.map (fun f => if f.done then f else { f with cancelled := true })
  (db', futures')

/-- `RESIZE_DEBOUNCE_SECONDS` (hardcoded to 5 in the worker). -/
def resizeDebounceSeconds : ℚ := 5

/-- The control-plane state of `AnalysisWorker` relevant to `set_workers`:
the current pool size (`NUM_WORKERS`), the buffered resize target
(`_pending_resize`) and the buffering timestamp (`_pending_resize_time`).
Times are seconds as rationals. -/
structure WorkerCtl where
  numWorkers : Nat
  pendingResize : Option Nat
  pendingResizeTime : ℚ
  deriving Repr, DecidableEq

/-- `max(1, min(8, count))` of `_check_control_signals`. -/
def clampWorkerCount (count : Int) : Nat :=
  (max 1 (min 8 count)).toNat

/-- The `set_workers` branch of `AnalysisWorker._check_control_signals`:
clamp the requested count to `1..8`; when the result differs from the
current `NUM_WORKERS`, buffer it with the current time, otherwise return
with the state untouched. -/
def handleSetWorkers (s : WorkerCtl) (count : Int) (now : ℚ) : WorkerCtl :=
  let newCount := clampWorkerCount count
  if newCount ≠ s.numWorkers then
    { s with pendingResize := some newCount, pendingResizeTime := now }
  else s

/-- `AnalysisWorker._resize_worker_pool` restricted to the worker count: a
no-op when the target equals the current count, else the pool is swapped
and `NUM_WORKERS` becomes the target. -/
def resizeWorkerPool (s : WorkerCtl) (newCount : Nat) : WorkerCtl :=
  if newCount = s.numWorkers then s else { s with numWorkers := newCount }

/-- `AnalysisWorker._apply_pending_resize`: nothing buffered, or the
debounce interval has not yet elapsed, leaves the state unchanged;
otherwise the buffer is cleared and the pool resized to the target. -/
def applyPendingResize (s : WorkerCtl) (now : ℚ) : WorkerCtl :=
  match s.pendingResize with
  | none => s
  | some target =>
      if now - s.pendingResizeTime < resizeDebounceSeconds then s
      else resizeWorkerPool { s with pendingResize := none } target

/-! ### Text-embed responder (`services/audio-analyzer-clap/analyzer.py`) -/

/-- `TEXT_EMBED_REQUEST_STREAM`. -/
def textEmbedRequestStream : String := "audio:text:embed:requests"

/-- `TEXT_EMBED_GROUP` (default). -/
def textEmbedGroup : String := "clap:text:embed:group"

/-- `TEXT_EMBED_RESPONSE_PREFIX`, the base of derived response keys. -/
def textEmbedResponseKeyBase : String := "audio:text:embed:response:"

/-- `TEXT_EMBED_RESPONSE_TTL_SECONDS` (default). -/
def textEmbedResponseTtl : Nat := 120

/-- `MODEL_VERSION` of the CLAP service. -/
def clapModelVersion : String := "laion-clap-music-v1"

/-- A Redis command as buffered into a pipeline by the text-embed
responder. -/
inductive RedisOp where
  | lpush (key payload : String)
  | expire (key : String) (ttl : Nat)
  | xack (stream group messageId : String)
  deriving Repr, DecidableEq

/-- The Redis effects visible to the responder model: whether the consumer
group exists, the pushed list elements, the applied key TTLs, and the acked
stream entries. -/
structure RedisState where
  groupExists : Bool
  lists : List (String × String)
  ttls : List (String × Nat)
  acked : List String
  deriving Repr, DecidableEq

/-- Execute one command; `xack` on a missing group reports an error (the
one error source the handler distinguishes), everything else succeeds. -/
def execOp (w : RedisState) (op : RedisOp) : RedisState × Bool :=
  match op with
  | .lpush k p => ({ w with lists := (k, p) :: w.lists }, false)
  | .expire k t => ({ w with ttls := (k, t) :: w.ttls }, false)
  | .xack _ _ m =>
      if w.groupExists then ({ w with acked := m :: w.acked }, false)
      else (w, true)

/-- Execute a pipeline the way `redis-py` does: every buffered command runs
in order in one round trip, and `execute()` raises afterwards when any
command errored. -/
def execPipeline (w : RedisState) (ops : List RedisOp) : RedisState × Bool :=
  ops.foldl
    (fun acc op =>
      let (w', e) := execOp acc.1 op
      (w', acc.2 || e))
    (w, false)

/-- The pipeline buffered by `TextEmbedHandler._publish_response_and_ack`:
`lpush` of the response, `expire` of the response key, then `xack` of the
stream entry — the push strictly precedes the ack. -/
def publishPipelineOps (responseKey payload messageId : String) : List RedisOp :=
  [.lpush responseKey payload,
   .expire responseKey textEmbedResponseTtl,
   .xack textEmbedRequestStream textEmbedGroup messageId]

/-- `TextEmbedHandler._ensure_consumer_group` (idempotent
`XGROUP CREATE ... MKSTREAM`). -/
def ensureConsumerGroup (w : RedisState) : RedisState :=
  { w with groupExists := true }

/-- `TextEmbedHandler._publish_response_and_ack`: run the pipelined
push+expire+ack; when it fails with a no-group error, re-create the
consumer group and run a fallback pipeline that publishes the response with
its TTL but does not ack. -/
def publishResponseAndAck (w : RedisState) (messageId responseKey payload : String) :
    RedisState :=
  let (w1, err) := execPipeline w (publishPipelineOps responseKey payload messageId)
  if err then
    let w2 := ensureConsumerGroup w1
    (execPipeline w2
      [.lpush responseKey payload,
       .expire responseKey textEmbedResponseTtl]).1
  else w1

/-- The response payload of the text-embed responder
(`{requestId, success, embedding?, modelVersion, error?}`). Embedding
components are modelled as rationals. -/
structure TextEmbedResponse where
  requestId : String
  success : Bool
  embedding : Option (List ℚ)
  modelVersion : String
  error : Option String
  deriving Repr, DecidableEq

/-- Python `not text or not text.strip()`: the text is empty or consists of
whitespace only. -/
def isBlank (s : String) : Bool :=
  s.toList.all Char.isWhitespace

/-- `CLAPAnalyzer.get_text_embedding`: empty or all-whitespace text is
rejected up front (returns `None`); otherwise the model is consulted
(modelled as an oracle that may also fail). -/
def getTextEmbedding (model : String → Option (List ℚ)) (text : String) :
    Option (List ℚ) :=
  if isBlank text then none else model text

/-- The externally visible outcome of handling one stream entry: ack only,
or a pipelined publish+ack of a response to a response key. -/
inductive HandlerEffect where
  | ackOnly (messageId : String)
  | publishAndAck (messageId responseKey : String) (response : TextEmbedResponse)
  deriving Repr, DecidableEq

/-- Python truthiness of an optional string field (`None` and `""` are
falsy). -/
def falsyStr : Option String → Bool
  | none => true
  | some s => s = ""

/-- `TextEmbedHandler._handle_message`: an entry whose `requestId` is
missing (or empty) is acked and dropped; otherwise the response key is the
given one or derived from the request id, the embedding is computed from
the `text` field (absent text behaves as `""`), and a response — success or
failure — is published and acked in one operation. `get_text_embedding`
returns `None` on failure instead of raising, so the exception branch of
the source is unreachable here. -/
def handleMessage (model : String → Option (List ℚ)) (messageId : String)
    (requestId text responseKey : Option String) : List HandlerEffect :=
  if falsyStr requestId then [.ackOnly messageId]
  else
    let rid := requestId.getD ""
    let rkey :=
      if falsyStr responseKey then textEmbedResponseKeyBase ++ rid
      else responseKey.getD ""
    let emb := getTextEmbedding model (text.getD "")
    let response : TextEmbedResponse :=
      { requestId := rid,
        success := emb.isSome,
        embedding := emb,
        modelVersion := clapModelVersion,
        error := if emb.isSome then none else some "Failed to generate text embedding" }
    [.publishAndAck messageId rkey response]

/-- `MAX_AUDIO_DURATION` (seconds). -/
def maxAudioDuration : ℚ := 60

/-- `CLAP_SAMPLE_RATE` (Hz). -/
def clapSampleRate : Nat := 48000

/-- The arguments of the `librosa.load` call issued by
`CLAPAnalyzer._load_audio_chunk`: target sample rate, mono flag, start
offset in seconds, and the loaded duration (`none` = entire file). -/
structure LoadCall where
  sr : Nat
  mono : Bool
  offset : ℚ
  duration : Option ℚ
  deriving Repr, DecidableEq

/-- The duration `_load_audio_chunk` works with: the hint when it is truthy
(a hint of `0.0` is falsy in Python and falls back to probing the file),
else the probed file duration
(`duration_hint if duration_hint else librosa.get_duration(...)`). -/
def effectiveDuration (durationHint : Option ℚ) (probedDuration : ℚ) : ℚ :=
  match durationHint with
  | some d => if d = 0 then probedDuration else d
  | none => probedDuration

/-- `CLAPAnalyzer._load_audio_chunk`: a duration longer than
`MAX_AUDIO_DURATION` loads the middle window at offset
`(duration - MAX_AUDIO_DURATION) / 2`; otherwise the whole file is loaded.
Both branches load mono at `CLAP_SAMPLE_RATE`. -/
def loadAudioChunk (durationHint : Option ℚ) (probedDuration : ℚ) : LoadCall :=
  let duration := effectiveDuration durationHint probedDuration
  if duration > maxAudioDuration then
    { sr := clapSampleRate, mono := true,
      offset := (duration - maxAudioDuration) / 2, duration := some maxAudioDuration }
  else
    { sr := clapSampleRate, mono := true, offset := 0, duration := none }

/-! ### Byte-range proxy of the TIDAL sidecar
(`services/tidal-downloader/app.py`) -/

/-- The client-facing failures `_open_upstream_stream` can raise:
no stream URL (404), transport failure opening the upstream (502
"Failed to fetch TIDAL stream"), and the post-loop 502
"Unable to refresh TIDAL stream URL". -/
inductive StreamProxyError where
  | noStreamUrl
  | fetchFailed
  | cannotRefresh
  deriving Repr, DecidableEq

/-- The deterministic environment of one proxy request: the (unexpired)
URL-cache entry for the exact `(user, track, quality)` key, the URL each
successive fresh extraction yields, the status the CDN answers per URL, and
whether opening a URL fails at the transport level. -/
structure TidalStreamWorld where
  cachedUrl : Option String
  extractedUrl : Nat → String
  upstreamStatus : String → Nat
  sendFails : String → Bool

/-- `_get_stream_url_sync` for a fixed key: return the cached URL when the
cache holds one, else perform the `n`-th fresh extraction (whose result is
cached). Returns the URL and the next extraction counter. -/
def getStreamUrl (w : TidalStreamWorld) (cache : Option String) (n : Nat) :
    String × Nat :=
  match cache with
  | some u => (u, n)
  | none => (w.extractedUrl n, n + 1)

/-- What one iteration of the `for attempt in range(2)` loop in
`_open_upstream_stream` does: raise, `continue`, or return the opened
upstream. -/
inductive AttemptOutcome where
  | raised (e : StreamProxyError)
  | continued
  | returned (status : Nat) (url : String)
  deriving Repr, DecidableEq

/-- The body of one loop iteration of `_open_upstream_stream`. Attempt 1
starts by evicting the exact cache key, so it always extracts fresh
(modelled by passing an empty cache). A 401/403 upstream triggers
`continue` only on attempt 0; on attempt 1 the upstream is returned
whatever its status. -/
def openAttemptBody (w : TidalStreamWorld) (attempt n : Nat) :
    AttemptOutcome × Nat :=
  let cache := if attempt = 0 then w.cachedUrl else none
  let (url, n') := getStreamUrl w cache n
  if url = "" then (.raised .noStreamUrl, n')
  else if w.sendFails url then (.raised .fetchFailed, n')
  else if attempt = 0 ∧ (w.upstreamStatus url = 401 ∨ w.upstreamStatus url = 403) then
    (.continued, n')
  else (.returned (w.upstreamStatus url) url, n')

/-- The observable outcome of `_open_upstream_stream`: the result (error or
opened upstream status+URL), how many times the exact cache key was
evicted, and how many fresh extractions ran. -/
structure OpenOutcome where
  result : Except StreamProxyError (Nat × String)
  cacheEvictions : Nat
  extractions : Nat
  deriving Repr

/-- `_open_upstream_stream`: two attempts; attempt 1 is entered only after
a 401/403 on attempt 0 and is preceded by `_clear_stream_cache` on the
exact key; falling out of the loop raises the cannot-refresh 502. -/
def openUpstreamStream (w : TidalStreamWorld) : OpenOutcome :=
  match openAttemptBody w 0 0 with
  | (.raised e, n) => ⟨.error e, 0, n⟩
  | (.returned s u, n) => ⟨.ok (s, u), 0, n⟩
  | (.continued, n) =>
      match openAttemptBody w 1 n with
      | (.raised e, n') => ⟨.error e, 1, n'⟩
      | (.returned s u, n') => ⟨.ok (s, u), 1, n'⟩
      | (.continued, n') => ⟨.error .cannotRefresh, 1, n'⟩

/-! ### Stream response headers (both streaming sidecars) -/

/-- Case-normalized lookup in a header list (the model keeps upstream
header names lowercase, as `httpx` exposes them). -/
def lookupHeader (hs : List (String × String)) (k : String) : Option String :=
  (hs.find? (fun h => h.1 = k)).map (·.2)

/-- Python `a or b` for an optional string (`None` and `""` fall through to
the default). -/
def pyOrStr (a : Option String) (b : String) : String :=
  match a with
  | none => b
  | some s => if s = "" then b else s

/-- The response headers built by `user_stream_proxy`
(tidal-downloader): `Accept-Ranges: bytes` and `Cache-Control`, the
content type forwarded from the upstream with the cache's
`content_type` hint as fallback, and `Content-Range` exactly when the
upstream carried one. `Content-Length` is never set, so the response is
chunked. -/
def tidalStreamResponseHeaders (upstreamHeaders : List (String × String))
    (hintContentType : String) : List (String × String) :=
  let ct := pyOrStr (lookupHeader upstreamHeaders "content-type") hintContentType
  [("Accept-Ranges", "bytes"), ("Cache-Control", "no-cache")]
    ++ (if ct ≠ "" then [("Content-Type", ct)] else [])
    ++ (match lookupHeader upstreamHeaders "content-range" with
        | some v => [("Content-Range", v)]
        | none => [])

/-- Substring occurrence over character lists (an empty pattern occurs
everywhere). -/
def listContainsSub (pat : List Char) : List Char → Bool
  | [] => pat.isEmpty
  | c :: t => pat.isPrefixOf (c :: t) || listContainsSub pat t

/-- Python `pat in s` on strings. -/
def strContainsSub (s pat : String) : Bool :=
  listContainsSub pat.toList s.toList

/-- The content-type derivation of `proxy_stream` (ytmusic-streamer), from
the cached stream info's `acodec` hint only. -/
def ytmusicContentType (acodec : String) : String :=
  if strContainsSub acodec "opus" then "audio/webm"
  else if strContainsSub acodec "mp4a" || strContainsSub acodec "aac" then "audio/mp4"
  else "audio/mp4"

/-- The response headers of the Range branch of `proxy_stream`
(ytmusic-streamer): codec-derived content type, `Accept-Ranges: bytes`,
`Content-Range` exactly when the upstream carried one, and — deliberately —
no `Content-Length`. -/
def ytmusicRangeResponseHeaders (acodec : String)
    (upstreamHeaders : List (String × String)) : List (String × String) :=
  [("Content-Type", ytmusicContentType acodec), ("Accept-Ranges", "bytes")]
    ++ (match lookupHeader upstreamHeaders "content-range" with
        | some v => [("Content-Range", v)]
        | none => [])

/-- The response headers of the non-Range branch of `proxy_stream`
(ytmusic-streamer): the `media_type` argument contributes the content type;
the upstream is only contacted later, inside the generator, so no upstream
header can be forwarded. -/
def ytmusicPlainResponseHeaders (acodec : String) : List (String × String) :=
  [("Content-Type", ytmusicContentType acodec),
   ("Accept-Ranges", "bytes"), ("Cache-Control", "no-cache")]

/-! ### Standard-mode heuristic estimates
(`AudioAnalyzer._apply_standard_estimates`) -/

/-- Python `x or d` on an optional numeric field (`None` and `0` are
falsy). This is exactly the defaulting `result.get(k, d) or d` performs. -/
def pyOrQ (v : Option ℚ) (d : ℚ) : ℚ :=
  match v with
  | none => d
  | some x => if x = 0 then d else x

/-- Python `round(x, 3)` over the rational model (round half to even on the
third decimal). -/
def pyRound3 (x : ℚ) : ℚ :=
  let y := x * 1000
  let n := ⌊y⌋
  let frac := y - n
  let r : ℤ :=
    if frac < 1 / 2 then n
    else if 1 / 2 < frac then n + 1
    else if n % 2 = 0 then n else n + 1
  (r : ℚ) / 1000

/-- The feature fields `_apply_standard_estimates` reads from `result`
(each possibly missing or `None`/`0`, hence optional), plus the `scale` and
`bpm` arguments. -/
structure StdEstimateInput where
  energy : Option ℚ
  dynamicRange : Option ℚ
  danceability : Option ℚ
  spectralCentroid : Option ℚ
  spectralFlatness : Option ℚ
  zcr : Option ℚ
  scale : String
  bpm : ℚ

/-- The fields `_apply_standard_estimates` writes back into `result`. -/
structure StdEstimateOutput where
  valence : ℚ
  arousal : ℚ
  instrumentalness : ℚ
  acousticness : ℚ
  speechiness : ℚ
  deriving Repr, DecidableEq

/-- The `bpm_valence` factor: `0.5` for a falsy bpm; fast (`>= 120`) maps
to `min(0.8, 0.5 + (bpm-120)/200)`, slow (`<= 80`) to
`max(0.2, 0.5 - (80-bpm)/100)`, otherwise `0.5`. -/
def bpmValence (bpm : ℚ) : ℚ :=
  if bpm = 0 then 0.5
  else if bpm ≥ 120 then min 0.8 (0.5 + (bpm - 120) / 200)
  else if bpm ≤ 80 then max 0.2 (0.5 - (80 - bpm) / 100)
  else 0.5

/-- The `bpm_arousal` factor: `0.5` for a falsy bpm, else 60–180 BPM mapped
into `[0.1, 0.9]`. -/
def bpmArousal (bpm : ℚ) : ℚ :=
  if bpm = 0 then 0.5
  else min 0.9 (max 0.1 ((bpm - 60) / 140))

/-- `AudioAnalyzer._apply_standard_estimates`: the heuristic (Standard
mode) estimates, translated field by field from the source. Neither
`valence` nor `arousal` is clamped — each is a weighted sum of its
component scores. -/
def applyStandardEstimates (inp : StdEstimateInput) : StdEstimateOutput :=
  let energy := pyOrQ inp.energy 0.5
  let dynamicRange := pyOrQ inp.dynamicRange 8
  let spectralCentroid := pyOrQ inp.spectralCentroid 0.5
  let spectralFlatness := pyOrQ inp.spectralFlatness (-20)
  let zcr := pyOrQ inp.zcr 0.1
  let keyValence : ℚ := if inp.scale = "major" then 0.65 else 0.35
  let brightnessValence := min 1.0 (spectralCentroid * 1.5)
  let valence := pyRound3
    (keyValence * 0.4 + bpmValence inp.bpm * 0.25 +
     brightnessValence * 0.2 + energy * 0.15)
  let energyArousal := energy
  let compressionArousal := max 0 (min 1.0 (1 - dynamicRange / 20))
  let brightnessArousal := min 1.0 (spectralCentroid * 1.2)
  let arousal := pyRound3
    (bpmArousal inp.bpm * 0.35 + energyArousal * 0.35 +
     brightnessArousal * 0.15 + compressionArousal * 0.15)
  let flatnessNormalized := min 1.0 (max 0 ((spectralFlatness + 40) / 40))
  let zcrInstrumental : ℚ :=
    if zcr < 0.05 then 0.7 else if zcr > 0.15 then 0.4 else 0.5
  let instrumentalness := pyRound3 (flatnessNormalized * 0.6 + zcrInstrumental * 0.4)
  let acousticness := pyRound3 (min 1.0 (dynamicRange / 12))
  let speechiness : ℚ :=
    if zcr > 0.08 ∧ zcr < 0.2 ∧ spectralCentroid > 0.1 ∧ spectralCentroid < 0.4 then
      pyRound3 (min 0.5 (zcr * 3))
    else 0.1
  { valence := valence, arousal := arousal,
    instrumentalness := instrumentalness,
    acousticness := acousticness, speechiness := speechiness }

/-! ## Theorems -/

/-- C1 counterexample: a track row that is stale in `processing` (its
`analysisStartedAt` far older than the window), has no embedding, and is at
the retry budget (`retryCount = maxRetries = 3`) is left completely
untouched by `_cleanup_stale_processing` — it stays in `processing` and is
not marked failed, contradicting the claim that the maintenance tick leaves
no such row in `processing`. -/
theorem cleanup_stale_processing_at_budget_counterexample :
    staleCondition 10000 15 ⟨"t1", "processing", some 0, some 3, none, 0⟩ = true ∧
    retryCountOf ⟨"t1", "processing", some 0, some 3, none, 0⟩ = 3 ∧
    cleanupStaleProcessing [] 10000 15 3
        [⟨"t1", "processing", some 0, some 3, none, 0⟩] =
      [⟨"t1", "processing", some 0, some 3, none, 0⟩] ∧
    ((cleanupStaleProcessing [] 10000 15 3
        [⟨"t1", "processing", some 0, some 3, none, 0⟩]).map
      (·.analysisStatus)) = ["processing"] := by
  decide

/-- C1 (amended): for every stale `processing` row, one maintenance tick of
`_cleanup_stale_processing` behaves as a trichotomy — with an embedding the
row becomes `completed` (error cleared, retry count untouched); with no
embedding and retry budget left it becomes `pending` with the retry count
incremented; with no embedding at or over the budget it is left unchanged,
still in `processing` (there is no terminal-failure branch). -/
theorem cleanup_stale_processing_trichotomy
    (emb : List String) (now staleMinutes : Int) (maxRetries : Nat)
    (db : List TrackRow) (r : TrackRow) (hr : r ∈ db)
    (hst : r.analysisStatus = "processing")
    (hstale : staleCondition now staleMinutes r = true) :
    ∃ r' ∈ cleanupStaleProcessing emb now staleMinutes maxRetries db,
      r'.id = r.id ∧
      (r.id ∈ emb →
        r'.analysisStatus = "completed" ∧ r'.analysisError = none ∧
        r'.analysisStartedAt = none ∧
        r'.analysisRetryCount = r.analysisRetryCount) ∧
      (r.id ∉ emb → retryCountOf r < maxRetries →
        r'.analysisStatus = "pending" ∧ r'.analysisStartedAt = none ∧
        r'.analysisRetryCount = some (retryCountOf r + 1)) ∧
      (r.id ∉ emb → maxRetries ≤ retryCountOf r → r' = r) := by
  refine ⟨resetStaleUnembedded emb now staleMinutes maxRetries
    (recoverStaleEmbedded emb now staleMinutes r), ?_, ?_, ?_, ?_, ?_⟩
  · unfold cleanupStaleProcessing
    exact List.mem_map_of_mem _ (List.mem_map_of_mem _ hr)
  · by_cases hemb : r.id ∈ emb
    · simp [recoverStaleEmbedded, resetStaleUnembedded, hemb, hst, hstale]
    · simp [recoverStaleEmbedded, resetStaleUnembedded, hemb, hst, hstale]
      split <;> rfl
  · intro hemb
    simp [recoverStaleEmbedded, resetStaleUnembedded, hemb, hst, hstale]
  · intro hemb hlt
    simp [recoverStaleEmbedded, resetStaleUnembedded, hemb, hst, hstale, hlt]
  · intro hemb hge
    simp [recoverStaleEmbedded, resetStaleUnembedded, hemb, hst, hstale,
      Nat.not_lt.mpr hge]

/-- Witness for the C1 trichotomy at concrete inputs: a stale embedded row
is recovered to `completed`, exercising the first branch. -/
theorem cleanup_stale_processing_trichotomy_witness :
    ∃ r' ∈ cleanupStaleProcessing ["t1"] 10000 15 3
        [⟨"t1", "processing", some 0, some 1, none, 0⟩],
      r'.id = "t1" ∧
      ("t1" ∈ ["t1"] →
        r'.analysisStatus = "completed" ∧ r'.analysisError = none ∧
        r'.analysisStartedAt = none ∧ r'.analysisRetryCount = some 1) ∧
      ("t1" ∉ ["t1"] → retryCountOf ⟨"t1", "processing", some 0, some 1, none, 0⟩ < 3 →
        r'.analysisStatus = "pending" ∧ r'.analysisStartedAt = none ∧
        r'.analysisRetryCount = some (retryCountOf ⟨"t1", "processing", some 0, some 1, none, 0⟩ + 1)) ∧
      ("t1" ∉ ["t1"] → 3 ≤ retryCountOf ⟨"t1", "processing", some 0, some 1, none, 0⟩ →
        r' = ⟨"t1", "processing", some 0, some 1, none, 0⟩) :=
  cleanup_stale_processing_trichotomy ["t1"] 10000 15 3
    [⟨"t1", "processing", some 0, some 1, none, 0⟩]
    ⟨"t1", "processing", some 0, some 1, none, 0⟩
    (by decide) (by decide) (by decide)

/-- `requeueUpdateRow` never touches the retry counter and preserves the
row id. -/
theorem requeueUpdateRow_frame (trackIds : List String) (reason : String)
    (now : Int) (r : TrackRow) :
    (requeueUpdateRow trackIds reason now r).id = r.id ∧
    (requeueUpdateRow trackIds reason now r).analysisRetryCount =
      r.analysisRetryCount := by
  unfold requeueUpdateRow
  split <;> simp

/-- C2: when a pool crash is detected mid-batch, every job of the batch not
yet finalized whose row is still `processing` is requeued without consuming
retry budget — its row goes back to `pending` with `analysisStartedAt`
cleared and `analysisRetryCount` unchanged, its descriptor is pushed back
onto the queue — every not-yet-done future is cancelled, and no row of the
table has its retry counter advanced by the crash handling. -/
theorem pool_crash_requeue_spec
    (db : List TrackRow) (batch : List QueueJob) (futures : List BatchFuture)
    (finalized : List String) (now : Int)
    (j : QueueJob) (hj : j ∈ batch) (hnf : j.trackId ∉ finalized)
    (r : TrackRow) (hr : r ∈ db) (hid : r.id = j.trackId)
    (hst : r.analysisStatus = "processing") :
    (∃ r' ∈ (poolCrashRequeue db batch futures finalized now).1,
        r'.id = r.id ∧ r'.analysisStatus = "pending" ∧
        r'.analysisStartedAt = none ∧
        r'.analysisRetryCount = r.analysisRetryCount) ∧
    j ∈ (poolCrashRequeue db batch futures finalized now).2.1 ∧
    (∀ f ∈ futures, f.done = false →
        { f with cancelled := true } ∈
          (poolCrashRequeue db batch futures finalized now).2.2) ∧
    (∀ r₀ ∈ db, ∃ r₀' ∈ (poolCrashRequeue db batch futures finalized now).1,
        r₀'.id = r₀.id ∧ r₀'.analysisRetryCount = r₀.analysisRetryCount) := by
  have hjrem : j ∈ batch.filter (fun t => decide (t.trackId ∉ finalized)) :=
    List.mem_filter.mpr ⟨hj, by simpa using hnf⟩
  have hidmem : r.id ∈ (batch.filter (fun t => decide (t.trackId ∉ finalized))).map
      (·.trackId) := by
    exact hid ▸ List.mem_map_of_mem _ hjrem
  refine ⟨?_, ?_, ?_, ?_⟩
  · refine ⟨requeueUpdateRow
      ((batch.filter (fun t => decide (t.trackId ∉ finalized))).map (·.trackId))
      poolCrashReason now r, ?_, ?_⟩
    · exact List.mem_map_of_mem _ hr
    · unfold requeueUpdateRow
      rw [if_pos ⟨hidmem, hst⟩]
      exact ⟨rfl, rfl, rfl, rfl⟩
  · show j ∈ (batch.filter (fun t => decide (t.trackId ∉ finalized))).filter _
    refine List.mem_filter.mpr ⟨hjrem, ?_⟩
    simp only [decide_eq_true_eq]
    have hmem : r.id ∈
        (db.filter (fun r₁ => decide (r₁.id ∈
            (batch.filter (fun t => decide (t.trackId ∉ finalized))).map (·.trackId) ∧
          r₁.analysisStatus = "processing"))).map (·.id) :=
      List.mem_map_of_mem _
        (List.mem_filter.mpr ⟨hr, by simp only [decide_eq_true_eq]; exact ⟨hidmem, hst⟩⟩)
    exact hid ▸ hmem
  · intro f hf hnd
    have h2 : (fun f => if f.done then f else { f with cancelled := true }) f =
        { f with cancelled := true } := by simp [hnd]
    exact h2 ▸ List.mem_map_of_mem
      (fun f => if f.done then f else { f with cancelled := true }) hf
  · intro r₀ hr₀
    exact ⟨requeueUpdateRow _ poolCrashReason now r₀, List.mem_map_of_mem _ hr₀,
      (requeueUpdateRow_frame _ _ _ _).1, (requeueUpdateRow_frame _ _ _ _).2⟩

/-- Witness for the pool-crash requeue at concrete inputs: one finalized
and one unfinished job, with an undone future for the latter. -/
theorem pool_crash_requeue_spec_witness :
    (∃ r' ∈ (poolCrashRequeue
        [⟨"t1", "completed", none, some 0, none, 5⟩,
         ⟨"t2", "processing", some 5, some 2, none, 5⟩]
        [⟨"t1", "a.flac"⟩, ⟨"t2", "b.flac"⟩]
        [⟨⟨"t2", "b.flac"⟩, false, false⟩] ["t1"] 100).1,
        r'.id = "t2" ∧ r'.analysisStatus = "pending" ∧
        r'.analysisStartedAt = none ∧ r'.analysisRetryCount = some 2) ∧
    (⟨"t2", "b.flac"⟩ : QueueJob) ∈ (poolCrashRequeue
        [⟨"t1", "completed", none, some 0, none, 5⟩,
         ⟨"t2", "processing", some 5, some 2, none, 5⟩]
        [⟨"t1", "a.flac"⟩, ⟨"t2", "b.flac"⟩]
        [⟨⟨"t2", "b.flac"⟩, false, false⟩] ["t1"] 100).2.1 ∧
    (∀ f ∈ [(⟨⟨"t2", "b.flac"⟩, false, false⟩ : BatchFuture)], f.done = false →
        { f with cancelled := true } ∈ (poolCrashRequeue
          [⟨"t1", "completed", none, some 0, none, 5⟩,
           ⟨"t2", "processing", some 5, some 2, none, 5⟩]
          [⟨"t1", "a.flac"⟩, ⟨"t2", "b.flac"⟩]
          [⟨⟨"t2", "b.flac"⟩, false, false⟩] ["t1"] 100).2.2) ∧
    (∀ r₀ ∈ [(⟨"t1", "completed", none, some 0, none, 5⟩ : TrackRow),
             ⟨"t2", "processing", some 5, some 2, none, 5⟩],
        ∃ r₀' ∈ (poolCrashRequeue
          [⟨"t1", "completed", none, some 0, none, 5⟩,
           ⟨"t2", "processing", some 5, some 2, none, 5⟩]
          [⟨"t1", "a.flac"⟩, ⟨"t2", "b.flac"⟩]
          [⟨⟨"t2", "b.flac"⟩, false, false⟩] ["t1"] 100).1,
        r₀'.id = r₀.id ∧ r₀'.analysisRetryCount = r₀.analysisRetryCount) := by
  have h := pool_crash_requeue_spec
    [⟨"t1", "completed", none, some 0, none, 5⟩,
     ⟨"t2", "processing", some 5, some 2, none, 5⟩]
    [⟨"t1", "a.flac"⟩, ⟨"t2", "b.flac"⟩]
    [⟨⟨"t2", "b.flac"⟩, false, false⟩] ["t1"] 100
    ⟨"t2", "b.flac"⟩ (by decide) (by decide)
    ⟨"t2", "processing", some 5, some 2, none, 5⟩ (by decide) rfl rfl
  exact h

/-- A row permanently failed by the batch-timeout handler: `failed`, retry
counter forced to the budget, batch-timeout message recorded, start time
cleared. -/
def permFailedShape (maxRetries : Nat) (msg : String) (r : TrackRow) : Prop :=
  r.analysisStatus = "failed" ∧ r.analysisRetryCount = some maxRetries ∧
  r.analysisError = some (msg.take 500) ∧ r.analysisStartedAt = none

/-- `saveFailed` keeps every row id in place. -/
theorem saveFailed_mem_id (maxRetries : Nat) (db : List TrackRow)
    (trackId msg tid : String) (p : Bool) (now : Int)
    (h : ∃ r ∈ db, r.id = tid) :
    ∃ r ∈ saveFailed maxRetries db trackId msg p now, r.id = tid := by
  obtain ⟨r, hr, hid⟩ := h
  refine ⟨_, List.mem_map_of_mem _ hr, ?_⟩
  show (if r.id = trackId then saveFailedRow maxRetries msg p now r else r).id = tid
  by_cases hc : r.id = trackId
  · rw [if_pos hc]
    unfold saveFailedRow
    split <;> exact hid
  · rw [if_neg hc]
    exact hid

/-- A permanent `saveFailed` on a row gives it the permanently-failed
shape. -/
theorem saveFailed_self (maxRetries : Nat) (db : List TrackRow)
    (tid msg : String) (now : Int)
    (h : ∃ r ∈ db, r.id = tid) :
    ∃ r ∈ saveFailed maxRetries db tid msg true now,
      permFailedShape maxRetries msg r ∧ r.id = tid := by
  obtain ⟨r, hr, hid⟩ := h
  refine ⟨_, List.mem_map_of_mem _ hr, ?_⟩
  simp [saveFailedRow, hid, permFailedShape]

/-- Later permanent `saveFailed` calls with the same message and budget
preserve the permanently-failed shape of any row. -/
theorem saveFailed_keep (maxRetries : Nat) (db : List TrackRow)
    (tid tid' msg : String) (now : Int)
    (h : ∃ r ∈ db, permFailedShape maxRetries msg r ∧ r.id = tid) :
    ∃ r ∈ saveFailed maxRetries db tid' msg true now,
      permFailedShape maxRetries msg r ∧ r.id = tid := by
  obtain ⟨r, hr, hsh, hid⟩ := h
  refine ⟨_, List.mem_map_of_mem _ hr, ?_⟩
  show permFailedShape maxRetries msg
      (if r.id = tid' then saveFailedRow maxRetries msg true now r else r) ∧
    (if r.id = tid' then saveFailedRow maxRetries msg true now r else r).id = tid
  by_cases hc : r.id = tid'
  · rw [if_pos hc]
    exact ⟨⟨rfl, rfl, rfl, rfl⟩, hid⟩
  · rw [if_neg hc]
    exact ⟨hsh, hid⟩

/-- The row-table fold of the batch-timeout handler. -/
def batchTimeoutFold (maxRetries timeoutSeconds : Nat) (now : Int)
    (futures : List BatchFuture) (db : List TrackRow) : List TrackRow :=
  futures.foldl
    (fun d f =>
      if f.done then d
      else saveFailed maxRetries d f.job.trackId
        (batchTimeoutMessage timeoutSeconds) true now)
    db

theorem batchTimeoutFinalize_fst (maxRetries timeoutSeconds : Nat)
    (db : List TrackRow) (futures : List BatchFuture) (now : Int) :
    (batchTimeoutFinalize maxRetries timeoutSeconds db futures now).1 =
      batchTimeoutFold maxRetries timeoutSeconds now futures db := rfl

theorem batchTimeoutFold_keep (maxRetries timeoutSeconds : Nat) (now : Int)
    (futures : List BatchFuture) (tid : String) :
    ∀ db : List TrackRow,
      (∃ r ∈ db, permFailedShape maxRetries (batchTimeoutMessage timeoutSeconds) r ∧
        r.id = tid) →
      ∃ r ∈ batchTimeoutFold maxRetries timeoutSeconds now futures db,
        permFailedShape maxRetries (batchTimeoutMessage timeoutSeconds) r ∧
        r.id = tid := by
  induction futures with
  | nil => intro db h; exact h
  | cons f fs ih =>
      intro db h
      show ∃ r ∈ batchTimeoutFold maxRetries timeoutSeconds now fs
        (if f.done then db
         else saveFailed maxRetries db f.job.trackId
           (batchTimeoutMessage timeoutSeconds) true now), _
      by_cases hd : f.done
      · rw [if_pos hd]; exact ih db h
      · rw [if_neg hd]
        exact ih _ (saveFailed_keep _ _ _ _ _ _ h)

theorem batchTimeoutFold_main (maxRetries timeoutSeconds : Nat) (now : Int)
    (futures : List BatchFuture) (tid : String) :
    ∀ db : List TrackRow,
      (∃ f ∈ futures, f.done = false ∧ f.job.trackId = tid) →
      (∃ r ∈ db, r.id = tid) →
      ∃ r ∈ batchTimeoutFold maxRetries timeoutSeconds now futures db,
        permFailedShape maxRetries (batchTimeoutMessage timeoutSeconds) r ∧
        r.id = tid := by
  induction futures with
  | nil => intro db h _; simp at h
  | cons f fs ih =>
      intro db hf hr
      show ∃ r ∈ batchTimeoutFold maxRetries timeoutSeconds now fs
        (if f.done then db
         else saveFailed maxRetries db f.job.trackId
           (batchTimeoutMessage timeoutSeconds) true now), _
      by_cases hd : f.done
      · rw [if_pos hd]
        obtain ⟨f₀, hf₀, hnd₀, htid₀⟩ := hf
        rcases List.mem_cons.mp hf₀ with h0 | h0
        · exact absurd (h0 ▸ hd) (by simp [hnd₀])
        · exact ih db ⟨f₀, h0, hnd₀, htid₀⟩ hr
      · rw [if_neg hd]
        by_cases htid : f.job.trackId = tid
        · exact batchTimeoutFold_keep _ _ _ _ _ _
            (htid ▸ saveFailed_self maxRetries db f.job.trackId _ now (htid ▸ hr))
        · obtain ⟨f₀, hf₀, hnd₀, htid₀⟩ := hf
          rcases List.mem_cons.mp hf₀ with h0 | h0
          · exact absurd (h0 ▸ htid₀) htid
          · exact ih _ ⟨f₀, h0, hnd₀, htid₀⟩
              (saveFailed_mem_id _ _ _ _ _ _ _ hr)

/-- C5: when the per-batch wall-clock timeout fires, every future that is
not yet done is cancelled and its track is marked as a permanent failure:
status `failed`, retry counter forced to `maxRetries`, and the
batch-timeout error message recorded. -/
theorem batch_timeout_finalize_spec
    (maxRetries timeoutSeconds : Nat) (db : List TrackRow)
    (futures : List BatchFuture) (now : Int)
    (f : BatchFuture) (hf : f ∈ futures) (hnd : f.done = false)
    (hex : ∃ r ∈ db, r.id = f.job.trackId) :
    (∃ r' ∈ (batchTimeoutFinalize maxRetries timeoutSeconds db futures now).1,
        r'.id = f.job.trackId ∧ r'.analysisStatus = "failed" ∧
        r'.analysisRetryCount = some maxRetries ∧
        r'.analysisError = some ((batchTimeoutMessage timeoutSeconds).take 500) ∧
        r'.analysisStartedAt = none) ∧
    { f with cancelled := true } ∈
      (batchTimeoutFinalize maxRetries timeoutSeconds db futures now).2 := by
  constructor
  · rw [batchTimeoutFinalize_fst]
    obtain ⟨r, hmem, hsh, hid⟩ :=
      batchTimeoutFold_main maxRetries timeoutSeconds now futures f.job.trackId db
        ⟨f, hf, hnd, rfl⟩ hex
    exact ⟨r, hmem, hid, hsh.1, hsh.2.1, hsh.2.2.1, hsh.2.2.2⟩
  · have h2 : (fun f => if f.done then f else { f with cancelled := true }) f =
        { f with cancelled := true } := by simp [hnd]
    exact h2 ▸ List.mem_map_of_mem
      (fun f => if f.done then f else { f with cancelled := true }) hf

/-- Witness for the batch-timeout finalization at concrete inputs. -/
theorem batch_timeout_finalize_spec_witness :
    (∃ r' ∈ (batchTimeoutFinalize 3 900
        [⟨"t1", "processing", some 5, some 1, none, 5⟩]
        [⟨⟨"t1", "a.flac"⟩, false, false⟩] 100).1,
        r'.id = "t1" ∧ r'.analysisStatus = "failed" ∧
        r'.analysisRetryCount = some 3 ∧
        r'.analysisError = some ((batchTimeoutMessage 900).take 500) ∧
        r'.analysisStartedAt = none) ∧
    (⟨⟨"t1", "a.flac"⟩, false, true⟩ : BatchFuture) ∈
      (batchTimeoutFinalize 3 900
        [⟨"t1", "processing", some 5, some 1, none, 5⟩]
        [⟨⟨"t1", "a.flac"⟩, false, false⟩] 100).2 :=
  batch_timeout_finalize_spec 3 900
    [⟨"t1", "processing", some 5, some 1, none, 5⟩]
    [⟨⟨"t1", "a.flac"⟩, false, false⟩] 100
    ⟨⟨"t1", "a.flac"⟩, false, false⟩ (by decide) rfl
    ⟨⟨"t1", "processing", some 5, some 1, none, 5⟩, by decide, rfl⟩

/-- C6 counterexample. First: a `set_workers` whose clamped count equals
the current worker count (here 4 with `NUM_WORKERS = 4`) is not buffered at
all — `_pending_resize` stays `none` — contradicting "for every received
set_workers control message, the requested count is ... buffered". Second:
with a 5-second debounce, `set_workers 5` at `t = 0` followed by
`set_workers 4` at `t = 2` (within the window) still resizes to 5 at
`t = 5.5`, because the no-op message neither overwrote the buffer nor reset
the timer — contradicting "while further set_workers messages keep arriving
within the debounce window no resize takes place". -/
theorem set_workers_noop_counterexample :
    handleSetWorkers ⟨4, none, 0⟩ 4 1 = ⟨4, none, 0⟩ ∧
    (handleSetWorkers ⟨4, none, 0⟩ 4 1).pendingResize = none ∧
    handleSetWorkers (handleSetWorkers ⟨4, none, 0⟩ 5 0) 4 2 =
      ⟨4, some 5, 0⟩ ∧
    (applyPendingResize
      (handleSetWorkers (handleSetWorkers ⟨4, none, 0⟩ 5 0) 4 2)
      (11/2)).numWorkers = 5 := by
  refine ⟨rfl, rfl, rfl, ?_⟩
  show (applyPendingResize ⟨4, some 5, 0⟩ (11/2)).numWorkers = 5
  norm_num [applyPendingResize, resizeWorkerPool, resizeDebounceSeconds]

/-- C6 (amended): the requested count is clamped to `1..8`; a `set_workers`
whose clamped count differs from the current worker count buffers the
target with its arrival time (overwriting any previous buffer) and performs
no immediate resize, while a no-op request (clamped count equal to the
current count) leaves the state — including any previously buffered resize
and its timer — untouched; `_apply_pending_resize` does nothing while the
debounce interval has not elapsed since the last buffering, and once it has
elapsed it clears the buffer and resizes the pool to the buffered target. -/
theorem set_workers_debounce_spec :
    (∀ count : Int, 1 ≤ clampWorkerCount count ∧ clampWorkerCount count ≤ 8) ∧
    (∀ (s : WorkerCtl) (count : Int) (now : ℚ),
        clampWorkerCount count ≠ s.numWorkers →
        handleSetWorkers s count now =
          { s with pendingResize := some (clampWorkerCount count),
                   pendingResizeTime := now }) ∧
    (∀ (s : WorkerCtl) (count : Int) (now : ℚ),
        clampWorkerCount count = s.numWorkers →
        handleSetWorkers s count now = s) ∧
    (∀ (s : WorkerCtl) (count : Int) (now : ℚ),
        (handleSetWorkers s count now).numWorkers = s.numWorkers) ∧
    (∀ (s : WorkerCtl) (now : ℚ) (target : Nat),
        s.pendingResize = some target →
        now - s.pendingResizeTime < resizeDebounceSeconds →
        applyPendingResize s now = s) ∧
    (∀ (s : WorkerCtl) (now : ℚ) (target : Nat),
        s.pendingResize = some target →
        resizeDebounceSeconds ≤ now - s.pendingResizeTime →
        (applyPendingResize s now).numWorkers = target ∧
        (applyPendingResize s now).pendingResize = none) ∧
    (∀ (s : WorkerCtl) (now : ℚ),
        s.pendingResize = none → applyPendingResize s now = s) := by
  refine ⟨?_, ?_, ?_, ?_, ?_, ?_, ?_⟩
  · intro count
    unfold clampWorkerCount
    constructor <;> omega
  · intro s count now h
    unfold handleSetWorkers
    rw [if_pos h]
  · intro s count now h
    unfold handleSetWorkers
    rw [if_neg (by simpa using h)]
  · intro s count now
    unfold handleSetWorkers
    dsimp only
    split <;> rfl
  · intro s now target hp hlt
    unfold applyPendingResize
    rw [hp]
    exact if_pos hlt
  · intro s now target hp hge
    unfold applyPendingResize
    rw [hp]
    dsimp only
    rw [if_neg (not_lt.mpr hge)]
    unfold resizeWorkerPool
    constructor
    · split <;> simp_all
    · split <;> rfl
  · intro s now hp
    unfold applyPendingResize
    rw [hp]

/-- Witness for the debounce specification: an effective `set_workers 6` is
buffered, not applied; applying before the window does nothing; applying
after the window resizes to 6 and clears the buffer. -/
theorem set_workers_debounce_spec_witness :
    (1 ≤ clampWorkerCount 6 ∧ clampWorkerCount 6 ≤ 8) ∧
    handleSetWorkers ⟨4, none, 0⟩ 6 1 =
      { numWorkers := 4, pendingResize := some (clampWorkerCount 6),
        pendingResizeTime := 1 } ∧
    applyPendingResize ⟨4, some 6, 1⟩ 2 = ⟨4, some 6, 1⟩ ∧
    (applyPendingResize ⟨4, some 6, 1⟩ 7).numWorkers = 6 ∧
    (applyPendingResize ⟨4, some 6, 1⟩ 7).pendingResize = none :=
  ⟨set_workers_debounce_spec.1 6,
   set_workers_debounce_spec.2.1 ⟨4, none, 0⟩ 6 1 (by decide),
   set_workers_debounce_spec.2.2.2.2.1 ⟨4, some 6, 1⟩ 2 6 rfl
     (by norm_num [resizeDebounceSeconds]),
   (set_workers_debounce_spec.2.2.2.2.2.1 ⟨4, some 6, 1⟩ 7 6 rfl
     (by norm_num [resizeDebounceSeconds])).1,
   (set_workers_debounce_spec.2.2.2.2.2.1 ⟨4, some 6, 1⟩ 7 6 rfl
     (by norm_num [resizeDebounceSeconds])).2⟩

/-- C3: for every handled text-embed entry the response is published in the
same pipelined operation as the ack, with the `lpush` strictly preceding
the `xack` — so after any prefix of the pipeline in which the entry shows
up acked, the response is already queued — and when the pipeline fails with
a no-group error the handler recreates the consumer group and still
publishes the response with its TTL without acknowledging the entry. -/
theorem publish_response_and_ack_spec :
    (∀ (w : RedisState) (mid key payload : String) (n : Nat),
        mid ∈ (execPipeline w ((publishPipelineOps key payload mid).take n)).1.acked →
        mid ∈ w.acked ∨
          (key, payload) ∈
            (execPipeline w ((publishPipelineOps key payload mid).take n)).1.lists) ∧
    (∀ (w : RedisState) (mid key payload : String),
        (key, payload) ∈ (publishResponseAndAck w mid key payload).lists ∧
        (key, textEmbedResponseTtl) ∈ (publishResponseAndAck w mid key payload).ttls) ∧
    (∀ (w : RedisState) (mid key payload : String),
        w.groupExists = true →
        publishResponseAndAck w mid key payload =
          { w with lists := (key, payload) :: w.lists,
                   ttls := (key, textEmbedResponseTtl) :: w.ttls,
                   acked := mid :: w.acked }) ∧
    (∀ (w : RedisState) (mid key payload : String),
        w.groupExists = false →
        (publishResponseAndAck w mid key payload).groupExists = true ∧
        (publishResponseAndAck w mid key payload).acked = w.acked) := by
  refine ⟨?_, ?_, ?_, ?_⟩
  · intro w mid key payload n hmem
    match n with
    | 0 => exact Or.inl hmem
    | 1 => exact Or.inl hmem
    | 2 => exact Or.inl hmem
    | (k + 3) =>
        rw [List.take_of_length_le (by simp [publishPipelineOps])] at hmem ⊢
        by_cases hg : w.groupExists
        · exact Or.inr (by simp [execPipeline, execOp, publishPipelineOps, hg])
        · exact Or.inl (by simpa [execPipeline, execOp, publishPipelineOps, hg] using hmem)
  · intro w mid key payload
    by_cases hg : w.groupExists <;>
      simp [publishResponseAndAck, execPipeline, execOp, publishPipelineOps, hg,
        ensureConsumerGroup]
  · intro w mid key payload hg
    simp [publishResponseAndAck, execPipeline, execOp, publishPipelineOps, hg]
  · intro w mid key payload hg
    simp [publishResponseAndAck, execPipeline, execOp, publishPipelineOps, hg,
      ensureConsumerGroup]

/-- Witness for the publish+ack specification at concrete inputs, covering
both the group-present and the group-lost path. -/
theorem publish_response_and_ack_spec_witness :
    (("m1" : String) ∈
        (execPipeline ⟨true, [], [], []⟩
          ((publishPipelineOps "k1" "p1" "m1").take 3)).1.acked →
      ("m1" : String) ∈ (⟨true, [], [], []⟩ : RedisState).acked ∨
        (("k1", "p1") : String × String) ∈
          (execPipeline ⟨true, [], [], []⟩
            ((publishPipelineOps "k1" "p1" "m1").take 3)).1.lists) ∧
    (("k1", "p1") : String × String) ∈
      (publishResponseAndAck ⟨false, [], [], []⟩ "m1" "k1" "p1").lists ∧
    publishResponseAndAck ⟨true, [], [], []⟩ "m1" "k1" "p1" =
      ⟨true, [("k1", "p1")], [("k1", textEmbedResponseTtl)], ["m1"]⟩ ∧
    (publishResponseAndAck ⟨false, [], [], []⟩ "m1" "k1" "p1").groupExists = true ∧
    (publishResponseAndAck ⟨false, [], [], []⟩ "m1" "k1" "p1").acked = [] :=
  ⟨publish_response_and_ack_spec.1 ⟨true, [], [], []⟩ "m1" "k1" "p1" 3,
   (publish_response_and_ack_spec.2.1 ⟨false, [], [], []⟩ "m1" "k1" "p1").1,
   publish_response_and_ack_spec.2.2.1 ⟨true, [], [], []⟩ "m1" "k1" "p1" rfl,
   (publish_response_and_ack_spec.2.2.2 ⟨false, [], [], []⟩ "m1" "k1" "p1" rfl).1,
   (publish_response_and_ack_spec.2.2.2 ⟨false, [], [], []⟩ "m1" "k1" "p1" rfl).2⟩

/-- C9 counterexample: a stream entry with a valid `requestId` but an empty
`text` field is not acknowledged-and-dropped — the handler publishes a
failure response (`success = false`) to the derived response key and acks
it in the same operation, even with a model that would embed any non-blank
text. This contradicts the claim that such an entry produces no response. -/
theorem handle_message_empty_text_counterexample :
    handleMessage (fun _ => some [1]) "m1" (some "r1") (some "") none =
      [.publishAndAck "m1" "audio:text:embed:response:r1"
        { requestId := "r1", success := false, embedding := none,
          modelVersion := clapModelVersion,
          error := some "Failed to generate text embedding" }] ∧
    handleMessage (fun _ => some [1]) "m1" (some "r1") (some "") none ≠
      [.ackOnly "m1"] := by
  constructor
  · rfl
  · simp [handleMessage, falsyStr, getTextEmbedding]

/-- C9 (amended): an entry whose `requestId` is missing or empty is
acknowledged and dropped with no response published; an entry with a valid
`requestId` but an empty (or all-whitespace, or missing) `text` field is
answered instead — a failure response with `success = false` and the
embedding-failure error is published to its response key and the entry is
acked in the same pipelined operation. -/
theorem handle_message_invalid_spec
    (model : String → Option (List ℚ)) (mid : String)
    (requestId text responseKey : Option String) :
    (falsyStr requestId = true →
      handleMessage model mid requestId text responseKey = [.ackOnly mid]) ∧
    (∀ rid, requestId = some rid → rid ≠ "" → isBlank (text.getD "") = true →
      ∃ rkey,
        handleMessage model mid requestId text responseKey =
          [.publishAndAck mid rkey
            { requestId := rid, success := false, embedding := none,
              modelVersion := clapModelVersion,
              error := some "Failed to generate text embedding" }]) := by
  constructor
  · intro h
    unfold handleMessage
    rw [if_pos h]
  · intro rid hrid hne htrim
    refine ⟨if falsyStr responseKey then textEmbedResponseKeyBase ++ rid
      else responseKey.getD "", ?_⟩
    unfold handleMessage
    rw [if_neg (by simp [falsyStr, hrid, hne])]
    simp only [hrid, Option.getD_some, getTextEmbedding, htrim, if_pos rfl]
    rfl

/-- Witness for the invalid-entry handling at concrete inputs: a missing
`requestId` is acked and dropped; an empty `text` yields a failure
response. -/
theorem handle_message_invalid_spec_witness :
    handleMessage (fun _ => some [1]) "m2" none (some "hello") none =
      [.ackOnly "m2"] ∧
    (∃ rkey,
      handleMessage (fun _ => some [1]) "m3" (some "r3") (some " ") none =
        [.publishAndAck "m3" rkey
          { requestId := "r3", success := false, embedding := none,
            modelVersion := clapModelVersion,
            error := some "Failed to generate text embedding" }]) :=
  ⟨(handle_message_invalid_spec (fun _ => some [1]) "m2" none (some "hello") none).1
      rfl,
   (handle_message_invalid_spec (fun _ => some [1]) "m3" (some "r3") (some " ") none).2
      "r3" rfl (by decide) (by decide)⟩

/-- C8: whenever the duration the loader determines exceeds the 60-second
audio window, `_load_audio_chunk` issues exactly the middle-window load:
mono, model-native 48 kHz, offset `(duration - window) / 2` for `window`
seconds — the extracted window lies inside the file and leaves equal
margins on both sides; for a duration at most the window the entire file is
loaded mono at the same rate. -/
theorem load_audio_chunk_middle_window_spec
    (durationHint : Option ℚ) (probedDuration : ℚ) :
    (maxAudioDuration < effectiveDuration durationHint probedDuration →
      loadAudioChunk durationHint probedDuration =
        { sr := clapSampleRate, mono := true,
          offset := (effectiveDuration durationHint probedDuration - maxAudioDuration) / 2,
          duration := some maxAudioDuration } ∧
      0 ≤ (effectiveDuration durationHint probedDuration - maxAudioDuration) / 2 ∧
      (effectiveDuration durationHint probedDuration - maxAudioDuration) / 2 +
          maxAudioDuration ≤ effectiveDuration durationHint probedDuration ∧
      (effectiveDuration durationHint probedDuration - maxAudioDuration) / 2 =
        effectiveDuration durationHint probedDuration -
          ((effectiveDuration durationHint probedDuration - maxAudioDuration) / 2 +
            maxAudioDuration)) ∧
    (effectiveDuration durationHint probedDuration ≤ maxAudioDuration →
      loadAudioChunk durationHint probedDuration =
        { sr := clapSampleRate, mono := true, offset := 0, duration := none }) := by
  constructor
  · intro h
    refine ⟨?_, ?_, ?_, ?_⟩
    · unfold loadAudioChunk
      rw [if_pos h]
    · have := le_of_lt h
      unfold maxAudioDuration at *
      linarith
    · have := le_of_lt h
      unfold maxAudioDuration at *
      linarith
    · ring
  · intro h
    unfold loadAudioChunk
    rw [if_neg (not_lt.mpr h)]

/-- Witness for the middle-window loader at concrete inputs: a 100-second
file (no hint) loads `[20, 80]`; a 42-second file (falsy hint `0`) is
loaded whole. -/
theorem load_audio_chunk_middle_window_spec_witness :
    loadAudioChunk none 100 =
      { sr := clapSampleRate, mono := true, offset := 20, duration := some 60 } ∧
    loadAudioChunk (some 0) 42 =
      { sr := clapSampleRate, mono := true, offset := 0, duration := none } := by
  constructor
  · have h := (load_audio_chunk_middle_window_spec none 100).1
      (by norm_num [effectiveDuration, maxAudioDuration])
    rw [h.1]
    norm_num [effectiveDuration, maxAudioDuration]
  · exact (load_audio_chunk_middle_window_spec (some 0) 42).2
      (by norm_num [effectiveDuration, maxAudioDuration])

/-- C4 counterexample: with a cached URL rejected with 403 and the freshly
extracted URL also answering 403, `_open_upstream_stream` does not fail
with the cannot-refresh error — after the single eviction and refresh it
returns the second upstream, and the 403 is proxied through to the client
(the final `raise` of the cannot-refresh 502 is dead code). -/
theorem open_upstream_second_rejection_counterexample :
    (openUpstreamStream
      { cachedUrl := some "u0", extractedUrl := fun _ => "u1",
        upstreamStatus := fun u => if u = "u0" then 403 else if u = "u1" then 403 else 200,
        sendFails := fun _ => false }).result = .ok (403, "u1") ∧
    (openUpstreamStream
      { cachedUrl := some "u0", extractedUrl := fun _ => "u1",
        upstreamStatus := fun u => if u = "u0" then 403 else if u = "u1" then 403 else 200,
        sendFails := fun _ => false }).result ≠ .error .cannotRefresh ∧
    (openUpstreamStream
      { cachedUrl := some "u0", extractedUrl := fun _ => "u1",
        upstreamStatus := fun u => if u = "u0" then 403 else if u = "u1" then 403 else 200,
        sendFails := fun _ => false }).cacheEvictions = 1 := by
  refine ⟨rfl, ?_, rfl⟩
  intro h
  rw [show (openUpstreamStream
      { cachedUrl := some "u0", extractedUrl := fun _ => "u1",
        upstreamStatus := fun u => if u = "u0" then 403 else if u = "u1" then 403 else 200,
        sendFails := fun _ => false }).result = .ok (403, "u1") from rfl] at h
  simp at h

/-- Attempt 1 of `_open_upstream_stream` always fetches fresh (the cache
key was just evicted) and returns the opened upstream whatever its status;
its guard `attempt == 0` can never fire a `continue`. -/
theorem openAttemptBody_one (w : TidalStreamWorld) (n : Nat) :
    openAttemptBody w 1 n =
      if w.extractedUrl n = "" then (.raised .noStreamUrl, n + 1)
      else if w.sendFails (w.extractedUrl n) = true then (.raised .fetchFailed, n + 1)
      else (.returned (w.upstreamStatus (w.extractedUrl n)) (w.extractedUrl n), n + 1) := by
  unfold openAttemptBody getStreamUrl
  rw [if_neg (by decide : ¬(1 : Nat) = 0)]
  dsimp only
  by_cases he : w.extractedUrl n = ""
  · rw [if_pos he, if_pos he]
  · rw [if_neg he, if_neg he]
    by_cases hs : w.sendFails (w.extractedUrl n) = true
    · rw [if_pos hs, if_pos hs]
    · rw [if_neg hs, if_neg hs, if_neg (by simp)]

/-- Attempt 0 of `_open_upstream_stream` when the cache holds a URL. -/
theorem openAttemptBody_zero (w : TidalStreamWorld) (u0 : String) (n : Nat)
    (hc : w.cachedUrl = some u0) :
    openAttemptBody w 0 n =
      if u0 = "" then (.raised .noStreamUrl, n)
      else if w.sendFails u0 = true then (.raised .fetchFailed, n)
      else if w.upstreamStatus u0 = 401 ∨ w.upstreamStatus u0 = 403 then
        (.continued, n)
      else (.returned (w.upstreamStatus u0) u0, n) := by
  unfold openAttemptBody getStreamUrl
  rw [if_pos rfl, hc]
  dsimp only
  by_cases he : u0 = ""
  · rw [if_pos he, if_pos he]
  · rw [if_neg he, if_neg he]
    by_cases hs : w.sendFails u0 = true
    · rw [if_pos hs, if_pos hs]
    · rw [if_neg hs, if_neg hs]
      by_cases hst : w.upstreamStatus u0 = 401 ∨ w.upstreamStatus u0 = 403
      · rw [if_pos ⟨rfl, hst⟩, if_pos hst]
      · rw [if_neg (by simpa using hst), if_neg hst]

/-- No loop iteration ever raises the cannot-refresh error — only the
(unreachable) fall-through after the loop would. -/
theorem openAttemptBody_no_cannotRefresh (w : TidalStreamWorld) (a n : Nat) :
    (openAttemptBody w a n).1 ≠ .raised .cannotRefresh := by
  unfold openAttemptBody
  rcases getStreamUrl w (if a = 0 then w.cachedUrl else none) n with ⟨url, n'⟩
  dsimp only
  split_ifs <;> simp

/-- Attempt 1 never issues a `continue`. -/
theorem openAttemptBody_one_ne_continued (w : TidalStreamWorld) (n : Nat) :
    (openAttemptBody w 1 n).1 ≠ .continued := by
  rw [openAttemptBody_one]
  split_ifs <;> simp

theorem openUpstream_eq_of_continued (w : TidalStreamWorld) (n0 : Nat)
    (h : openAttemptBody w 0 0 = (.continued, n0)) :
    openUpstreamStream w =
      (match openAttemptBody w 1 n0 with
       | (.raised e, n') => ⟨.error e, 1, n'⟩
       | (.returned s u, n') => ⟨.ok (s, u), 1, n'⟩
       | (.continued, n') => ⟨.error .cannotRefresh, 1, n'⟩) := by
  unfold openUpstreamStream
  rw [h]

/-- C4 (amended): a 401/403 on the first attempt causes exactly one
eviction of the exact cache key and exactly one fresh extraction, after
which the freshly opened upstream is returned whatever its status — a
second 401/403 is proxied through rather than converted into a
cannot-refresh error, and the cannot-refresh 502 is unreachable for every
environment; with any other first status no eviction happens and the first
upstream is returned. -/
theorem open_upstream_refresh_once_spec :
    (∀ w : TidalStreamWorld,
        (openUpstreamStream w).result ≠ .error .cannotRefresh) ∧
    (∀ (w : TidalStreamWorld) (u0 : String),
        w.cachedUrl = some u0 → u0 ≠ "" → w.sendFails u0 = false →
        (w.upstreamStatus u0 = 401 ∨ w.upstreamStatus u0 = 403) →
        (openUpstreamStream w).cacheEvictions = 1 ∧
        (openUpstreamStream w).extractions = 1 ∧
        (openUpstreamStream w).result =
          (if w.extractedUrl 0 = "" then .error .noStreamUrl
           else if w.sendFails (w.extractedUrl 0) = true then .error .fetchFailed
           else .ok (w.upstreamStatus (w.extractedUrl 0), w.extractedUrl 0))) ∧
    (∀ (w : TidalStreamWorld) (u0 : String),
        w.cachedUrl = some u0 → u0 ≠ "" → w.sendFails u0 = false →
        ¬(w.upstreamStatus u0 = 401 ∨ w.upstreamStatus u0 = 403) →
        (openUpstreamStream w).cacheEvictions = 0 ∧
        (openUpstreamStream w).result = .ok (w.upstreamStatus u0, u0)) := by
  refine ⟨?_, ?_, ?_⟩
  · intro w
    unfold openUpstreamStream
    rcases h0 : openAttemptBody w 0 0 with ⟨o0, n0⟩
    have hno0 : o0 ≠ .raised .cannotRefresh := by
      have := openAttemptBody_no_cannotRefresh w 0 0
      rw [h0] at this
      exact this
    cases o0 with
    | raised e =>
        dsimp only
        intro h
        injection h with he
        exact hno0 (by rw [he])
    | returned s u =>
        dsimp only
        simp
    | continued =>
        dsimp only
        rcases h1 : openAttemptBody w 1 n0 with ⟨o1, n1⟩
        have hno1 : o1 ≠ .raised .cannotRefresh := by
          have := openAttemptBody_no_cannotRefresh w 1 n0
          rw [h1] at this
          exact this
        have hnc1 : o1 ≠ .continued := by
          have := openAttemptBody_one_ne_continued w n0
          rw [h1] at this
          exact this
        cases o1 with
        | raised e =>
            dsimp only
            intro h
            injection h with he
            exact hno1 (by rw [he])
        | returned s u =>
            dsimp only
            simp
        | continued => exact absurd rfl hnc1
  · intro w u0 hc hne hsf hst
    have hb0 : openAttemptBody w 0 0 = (.continued, 0) := by
      rw [openAttemptBody_zero w u0 0 hc, if_neg hne,
        if_neg (by simp [hsf]), if_pos hst]
    rw [openUpstream_eq_of_continued w 0 hb0, openAttemptBody_one w 0]
    by_cases he : w.extractedUrl 0 = ""
    · rw [if_pos he, if_pos he]
      exact ⟨rfl, rfl, rfl⟩
    · rw [if_neg he, if_neg he]
      by_cases hs : w.sendFails (w.extractedUrl 0) = true
      · rw [if_pos hs, if_pos hs]
        exact ⟨rfl, rfl, rfl⟩
      · rw [if_neg hs, if_neg hs]
        exact ⟨rfl, rfl, rfl⟩
  · intro w u0 hc hne hsf hst
    have hb0 : openAttemptBody w 0 0 =
        (.returned (w.upstreamStatus u0) u0, 0) := by
      rw [openAttemptBody_zero w u0 0 hc, if_neg hne,
        if_neg (by simp [hsf]), if_neg hst]
    unfold openUpstreamStream
    rw [hb0]
    exact ⟨rfl, rfl⟩

/-- Witness for the refresh-once specification at concrete inputs: a cached
URL answering 401 with a healthy fresh URL answering 206. -/
theorem open_upstream_refresh_once_spec_witness :
    (openUpstreamStream
      { cachedUrl := some "old", extractedUrl := fun _ => "new",
        upstreamStatus := fun u => if u = "old" then 401 else 206,
        sendFails := fun _ => false }).result ≠ .error .cannotRefresh ∧
    (openUpstreamStream
      { cachedUrl := some "old", extractedUrl := fun _ => "new",
        upstreamStatus := fun u => if u = "old" then 401 else 206,
        sendFails := fun _ => false }).cacheEvictions = 1 ∧
    (openUpstreamStream
      { cachedUrl := some "old", extractedUrl := fun _ => "new",
        upstreamStatus := fun u => if u = "old" then 401 else 206,
        sendFails := fun _ => false }).extractions = 1 := by
  refine ⟨open_upstream_refresh_once_spec.1 _, ?_, ?_⟩
  · exact (open_upstream_refresh_once_spec.2.1
      { cachedUrl := some "old", extractedUrl := fun _ => "new",
        upstreamStatus := fun u => if u = "old" then 401 else 206,
        sendFails := fun _ => false } "old" rfl (by decide) rfl (by norm_num)).1
  · exact (open_upstream_refresh_once_spec.2.1
      { cachedUrl := some "old", extractedUrl := fun _ => "new",
        upstreamStatus := fun u => if u = "old" then 401 else 206,
        sendFails := fun _ => false } "old" rfl (by decide) rfl (by norm_num)).2.1

/-- C7 counterexample: in the Range branch of the ytmusic proxy, an
upstream that announces `content-type: audio/flac` while the cache's codec
hint is `opus` still gets `Content-Type: audio/webm` in the response — the
upstream content type is never forwarded; only the codec-derived hint is
used. -/
theorem lookupHeader_cons (a b : String) (t : List (String × String))
    (k : String) :
    lookupHeader ((a, b) :: t) k = if a = k then some b else lookupHeader t k := by
  by_cases h : a = k
  · simp [lookupHeader, List.find?_cons_of_pos, h]
  · simp [lookupHeader, List.find?_cons_of_neg, h]

theorem lookupHeader_nil (k : String) : lookupHeader [] k = none := rfl

theorem ytmusic_content_type_counterexample :
    lookupHeader [("content-type", "audio/flac")] "content-type" =
      some "audio/flac" ∧
    lookupHeader
        (ytmusicRangeResponseHeaders "opus" [("content-type", "audio/flac")])
        "Content-Type" = some "audio/webm" ∧
    ("audio/webm" : String) ≠ "audio/flac" := by
  refine ⟨rfl, rfl, by decide⟩

/-- C7 (amended): no proxied stream response ever carries `Content-Length`
(so transfer is chunked) and all carry `Accept-Ranges: bytes`; the tidal
proxy forwards `Content-Type` from the upstream with the cache hint as
fallback and forwards `Content-Range` exactly when the upstream carries
one; the ytmusic proxy instead always derives `Content-Type` from the
cached codec hint — never from the upstream — forwarding `Content-Range`
exactly when the upstream carries one in its Range branch, and emitting no
`Content-Range` in its non-Range branch (where the upstream is not yet
open when the headers are built). -/
theorem stream_proxy_headers_spec :
    (∀ (upstream : List (String × String)) (hint : String),
        lookupHeader (tidalStreamResponseHeaders upstream hint)
          "Content-Length" = none) ∧
    (∀ (acodec : String) (upstream : List (String × String)),
        lookupHeader (ytmusicRangeResponseHeaders acodec upstream)
          "Content-Length" = none) ∧
    (∀ acodec : String,
        lookupHeader (ytmusicPlainResponseHeaders acodec) "Content-Length" = none) ∧
    (∀ (upstream : List (String × String)) (hint : String),
        ("Accept-Ranges", "bytes") ∈ tidalStreamResponseHeaders upstream hint) ∧
    (∀ (acodec : String) (upstream : List (String × String)),
        ("Accept-Ranges", "bytes") ∈ ytmusicRangeResponseHeaders acodec upstream) ∧
    (∀ acodec : String,
        ("Accept-Ranges", "bytes") ∈ ytmusicPlainResponseHeaders acodec) ∧
    (∀ (upstream : List (String × String)) (hint : String),
        pyOrStr (lookupHeader upstream "content-type") hint ≠ "" →
        lookupHeader (tidalStreamResponseHeaders upstream hint) "Content-Type" =
          some (pyOrStr (lookupHeader upstream "content-type") hint)) ∧
    (∀ (upstream : List (String × String)) (hint : String),
        lookupHeader (tidalStreamResponseHeaders upstream hint) "Content-Range" =
          lookupHeader upstream "content-range") ∧
    (∀ (acodec : String) (upstream : List (String × String)),
        lookupHeader (ytmusicRangeResponseHeaders acodec upstream) "Content-Range" =
          lookupHeader upstream "content-range") ∧
    (∀ (acodec : String) (upstream : List (String × String)),
        lookupHeader (ytmusicRangeResponseHeaders acodec upstream) "Content-Type" =
          some (ytmusicContentType acodec)) ∧
    (∀ acodec : String,
        lookupHeader (ytmusicPlainResponseHeaders acodec) "Content-Range" = none) := by
  refine ⟨?_, ?_, ?_, ?_, ?_, ?_, ?_, ?_, ?_, ?_, ?_⟩
  · intro upstream hint
    rcases hcr : lookupHeader upstream "content-range" with _ | v <;>
      by_cases hct : pyOrStr (lookupHeader upstream "content-type") hint = "" <;>
      simp [tidalStreamResponseHeaders, hcr, hct, lookupHeader_cons, lookupHeader_nil]
  · intro acodec upstream
    rcases hcr : lookupHeader upstream "content-range" with _ | v <;>
      simp [ytmusicRangeResponseHeaders, hcr, lookupHeader_cons, lookupHeader_nil]
  · intro acodec
    simp [ytmusicPlainResponseHeaders, lookupHeader_cons, lookupHeader_nil]
  · intro upstream hint
    simp [tidalStreamResponseHeaders]
  · intro acodec upstream
    simp [ytmusicRangeResponseHeaders]
  · intro acodec
    simp [ytmusicPlainResponseHeaders]
  · intro upstream hint hct
    rcases hcr : lookupHeader upstream "content-range" with _ | v <;>
      simp [tidalStreamResponseHeaders, hcr, hct, lookupHeader_cons, lookupHeader_nil]
  · intro upstream hint
    rcases hcr : lookupHeader upstream "content-range" with _ | v <;>
      by_cases hct : pyOrStr (lookupHeader upstream "content-type") hint = "" <;>
      simp [tidalStreamResponseHeaders, hcr, hct, lookupHeader_cons, lookupHeader_nil]
  · intro acodec upstream
    rcases hcr : lookupHeader upstream "content-range" with _ | v <;>
      simp [ytmusicRangeResponseHeaders, hcr, lookupHeader_cons, lookupHeader_nil]
  · intro acodec upstream
    rcases hcr : lookupHeader upstream "content-range" with _ | v <;>
      simp [ytmusicRangeResponseHeaders, hcr, lookupHeader_cons, lookupHeader_nil]
  · intro acodec
    simp [ytmusicPlainResponseHeaders, lookupHeader_cons, lookupHeader_nil]

/-- Witness for the header specification at concrete inputs, including the
hypothesis-bearing tidal `Content-Type` conjunct. -/
theorem stream_proxy_headers_spec_witness :
    lookupHeader
        (tidalStreamResponseHeaders [("content-range", "bytes 0-1/2")] "audio/mp4")
        "Content-Length" = none ∧
    lookupHeader
        (tidalStreamResponseHeaders [("content-type", "audio/flac")] "audio/mp4")
        "Content-Type" =
      some (pyOrStr (lookupHeader [("content-type", "audio/flac")] "content-type")
        "audio/mp4") ∧
    lookupHeader
        (tidalStreamResponseHeaders [("content-range", "bytes 0-1/2")] "audio/mp4")
        "Content-Range" =
      lookupHeader [("content-range", "bytes 0-1/2")] "content-range" ∧
    ("Accept-Ranges", "bytes") ∈ ytmusicPlainResponseHeaders "opus" :=
  ⟨stream_proxy_headers_spec.1 [("content-range", "bytes 0-1/2")] "audio/mp4",
   stream_proxy_headers_spec.2.2.2.2.2.2.1 [("content-type", "audio/flac")]
     "audio/mp4" (by decide),
   stream_proxy_headers_spec.2.2.2.2.2.2.2.1 [("content-range", "bytes 0-1/2")]
     "audio/mp4",
   stream_proxy_headers_spec.2.2.2.2.2.1 "opus"⟩

theorem pyRound3_eq (x : ℚ) :
    pyRound3 x =
      ((if x * 1000 - ⌊x * 1000⌋ < 1 / 2 then ⌊x * 1000⌋
        else if 1 / 2 < x * 1000 - ⌊x * 1000⌋ then ⌊x * 1000⌋ + 1
        else if ⌊x * 1000⌋ % 2 = 0 then ⌊x * 1000⌋ else ⌊x * 1000⌋ + 1 : ℤ) : ℚ)
        / 1000 := rfl

/-- Rounding to three decimals keeps values inside `[0, 1]`. -/
theorem pyRound3_bounds (x : ℚ) (h0 : 0 ≤ x) (h1 : x ≤ 1) :
    0 ≤ pyRound3 x ∧ pyRound3 x ≤ 1 := by
  rw [pyRound3_eq]
  have hy0 : (0 : ℚ) ≤ x * 1000 := by linarith
  have hy1 : x * 1000 ≤ 1000 := by linarith
  have hn0 : (0 : ℤ) ≤ ⌊x * 1000⌋ := Int.floor_nonneg.mpr hy0
  have hfl : (⌊x * 1000⌋ : ℚ) ≤ x * 1000 := Int.floor_le _
  have hn1000 : ⌊x * 1000⌋ ≤ 1000 := by
    have h : (⌊x * 1000⌋ : ℚ) ≤ 1000 := le_trans hfl hy1
    exact_mod_cast h
  have hdiv0 : ∀ r : ℤ, 0 ≤ r → (0 : ℚ) ≤ (r : ℚ) / 1000 := by
    intro r hr
    have : (0 : ℚ) ≤ (r : ℚ) := by exact_mod_cast hr
    positivity
  have hdiv1 : ∀ r : ℤ, r ≤ 1000 → ((r : ℚ)) / 1000 ≤ 1 := by
    intro r hr
    rw [div_le_one (by norm_num)]
    exact_mod_cast hr
  have hlt1000 : 1 / 2 ≤ x * 1000 - ⌊x * 1000⌋ → ⌊x * 1000⌋ + 1 ≤ 1000 := by
    intro hf
    have h : (⌊x * 1000⌋ : ℚ) < 1000 := by linarith
    have h2 : ⌊x * 1000⌋ < 1000 := by exact_mod_cast h
    omega
  constructor
  · split_ifs with hf1 hf2 hpar
    · exact hdiv0 _ hn0
    · exact hdiv0 _ (by omega)
    · exact hdiv0 _ hn0
    · exact hdiv0 _ (by omega)
  · split_ifs with hf1 hf2 hpar
    · exact hdiv1 _ hn1000
    · exact hdiv1 _ (hlt1000 (le_of_lt hf2))
    · exact hdiv1 _ hn1000
    · exact hdiv1 _ (hlt1000 (by linarith [not_lt.mp hf1]))

/-- The `bpm_valence` factor stays inside `[0.2, 0.8]` for non-negative
bpm. -/
theorem bpmValence_bounds (bpm : ℚ) (h : 0 ≤ bpm) :
    1 / 5 ≤ bpmValence bpm ∧ bpmValence bpm ≤ 4 / 5 := by
  unfold bpmValence
  split_ifs with h0 h120 h80
  · norm_num
  · constructor
    · refine le_min (by norm_num) ?_
      have : (0 : ℚ) ≤ (bpm - 120) / 200 := by linarith
      linarith
    · exact (min_le_left _ _).trans (by norm_num)
  · constructor
    · exact le_trans (by norm_num) (le_max_left _ _)
    · refine max_le (by norm_num) ?_
      have : (0 : ℚ) ≤ (80 - bpm) / 100 := by linarith
      linarith
  · norm_num

/-- The `bpm_arousal` factor stays inside `[0.1, 0.9]` for every bpm. -/
theorem bpmArousal_bounds (bpm : ℚ) :
    1 / 10 ≤ bpmArousal bpm ∧ bpmArousal bpm ≤ 9 / 10 := by
  unfold bpmArousal
  split_ifs with h0
  · norm_num
  · constructor
    · exact le_min (by norm_num) (le_trans (by norm_num) (le_max_left _ _))
    · exact (min_le_left _ _).trans (by norm_num)

theorem applyStandardEstimates_valence (inp : StdEstimateInput) :
    (applyStandardEstimates inp).valence =
      pyRound3 ((if inp.scale = "major" then (0.65 : ℚ) else 0.35) * 0.4 +
        bpmValence inp.bpm * 0.25 +
        min 1.0 (pyOrQ inp.spectralCentroid 0.5 * 1.5) * 0.2 +
        pyOrQ inp.energy 0.5 * 0.15) := rfl

theorem applyStandardEstimates_arousal (inp : StdEstimateInput) :
    (applyStandardEstimates inp).arousal =
      pyRound3 (bpmArousal inp.bpm * 0.35 + pyOrQ inp.energy 0.5 * 0.35 +
        min 1.0 (pyOrQ inp.spectralCentroid 0.5 * 1.2) * 0.15 +
        max 0 (min 1.0 (1 - pyOrQ inp.dynamicRange 8 / 20)) * 0.15) := rfl

/-- C10: in Standard mode, with the extracted energy inside `[0, 1]`,
non-negative extracted spectral centroid and dynamic range, and any
non-negative bpm, the heuristic valence and arousal always land in
`[0, 1]` even though neither weighted sum is clamped: every component score
is bounded by its branch arithmetic, the weights sum below one, and the
final three-decimal rounding preserves the interval. -/
theorem standard_estimates_valence_arousal_bounds (inp : StdEstimateInput)
    (he0 : 0 ≤ pyOrQ inp.energy 0.5) (he1 : pyOrQ inp.energy 0.5 ≤ 1)
    (hsc : 0 ≤ pyOrQ inp.spectralCentroid 0.5)
    (hdr : 0 ≤ pyOrQ inp.dynamicRange 8)
    (hbpm : 0 ≤ inp.bpm) :
    0 ≤ (applyStandardEstimates inp).valence ∧
    (applyStandardEstimates inp).valence ≤ 1 ∧
    0 ≤ (applyStandardEstimates inp).arousal ∧
    (applyStandardEstimates inp).arousal ≤ 1 := by
  obtain ⟨hbv0, hbv1⟩ := bpmValence_bounds inp.bpm hbpm
  obtain ⟨hba0, hba1⟩ := bpmArousal_bounds inp.bpm
  have hkv0 : (0.35 : ℚ) ≤ (if inp.scale = "major" then (0.65 : ℚ) else 0.35) := by
    split_ifs <;> norm_num
  have hkv1 : (if inp.scale = "major" then (0.65 : ℚ) else 0.35) ≤ 0.65 := by
    split_ifs <;> norm_num
  have hbr0 : (0 : ℚ) ≤ min 1.0 (pyOrQ inp.spectralCentroid 0.5 * 1.5) :=
    le_min (by norm_num) (by nlinarith)
  have hbr1 : min 1.0 (pyOrQ inp.spectralCentroid 0.5 * 1.5) ≤ 1 :=
    (min_le_left _ _).trans (by norm_num)
  have hbra0 : (0 : ℚ) ≤ min 1.0 (pyOrQ inp.spectralCentroid 0.5 * 1.2) :=
    le_min (by norm_num) (by nlinarith)
  have hbra1 : min 1.0 (pyOrQ inp.spectralCentroid 0.5 * 1.2) ≤ 1 :=
    (min_le_left _ _).trans (by norm_num)
  have hca0 : (0 : ℚ) ≤ max 0 (min 1.0 (1 - pyOrQ inp.dynamicRange 8 / 20)) :=
    le_max_left _ _
  have hca1 : max 0 (min 1.0 (1 - pyOrQ inp.dynamicRange 8 / 20)) ≤ 1 :=
    max_le (by norm_num) ((min_le_left _ _).trans (by norm_num))
  rw [applyStandardEstimates_valence, applyStandardEstimates_arousal]
  refine ⟨(pyRound3_bounds _ (by nlinarith) (by nlinarith)).1,
    (pyRound3_bounds _ (by nlinarith) (by nlinarith)).2,
    (pyRound3_bounds _ (by nlinarith) (by nlinarith)).1,
    (pyRound3_bounds _ (by nlinarith) (by nlinarith)).2⟩

/-- Witness for the valence/arousal bounds at a concrete Standard-mode
input (major key, 128 bpm, mid-range features). -/
theorem standard_estimates_valence_arousal_bounds_witness :
    0 ≤ (applyStandardEstimates
      ⟨some (1/2), some 8, some (1/2), some (1/2), some (-20), some (1/10),
        "major", 128⟩).valence ∧
    (applyStandardEstimates
      ⟨some (1/2), some 8, some (1/2), some (1/2), some (-20), some (1/10),
        "major", 128⟩).valence ≤ 1 ∧
    0 ≤ (applyStandardEstimates
      ⟨some (1/2), some 8, some (1/2), some (1/2), some (-20), some (1/10),
        "major", 128⟩).arousal ∧
    (applyStandardEstimates
      ⟨some (1/2), some 8, some (1/2), some (1/2), some (-20), some (1/10),
        "major", 128⟩).arousal ≤ 1 :=
  standard_estimates_valence_arousal_bounds
    ⟨some (1/2), some 8, some (1/2), some (1/2), some (-20), some (1/10),
      "major", 128⟩
    (by norm_num [pyOrQ]) (by norm_num [pyOrQ]) (by norm_num [pyOrQ])
    (by norm_num [pyOrQ]) (by norm_num)

end Soundspan
